import Mathlib

/-!
# Verification of `csfloat_export.py`

A shallow embedding of the csfloat trade exporter: a batch job that fetches
trade records from a paginated HTTP API (`fetch_csfloat_trades`), normalizes
them (`process_trades`, `format_price`, `safe_float`), and serializes them to
CSV (`export_to_csv`), orchestrated by `async_main`.

Modelling conventions:
* Python `None`-able JSON fields become `Option` values; `dict.get` with a
  default becomes `Option.getD`.
* Machine floats are modelled by exact rationals (`ℚ`); Python's `round(x, 2)`
  is modelled as exact round-half-to-even at two decimal places (`pyRound2`).
* Python strings are Lean `String`s; character-level operations go through
  `String.data` so that everything is kernel-executable.
* The HTTP layer is modelled by an explicit list of page responses
  (`PageResp`), each either a transport/API failure or a list of records.
* The event-loop clock is modelled by explicit rational-valued clock readings
  (see `nextRequestTime`).
-/

set_option maxRecDepth 40000

/-- Python truthiness of an optional string (`None` and `""` are falsy),
as used by `if not date_str` and `if not API_KEY` in the script. -/
def pyTruthyStr : Option String → Bool
  | none => false
  | some s => !s.isEmpty

/-- The value found at `contract.get('price')`: absent (`None`), an integer
number of cents, or a non-numeric value on which `price / 100` would raise
`TypeError` (caught by `format_price`, yielding `0.0`). -/
inductive PyPrice
  | null
  | int (n : ℤ)
  | nonNum
deriving DecidableEq

/-- The value found at `item.get('float_value')`: absent, a JSON number, a
string that `float()` parses (with its value), or a value on which `float()`
raises `ValueError`/`TypeError`. -/
inductive FloatField
  | missing
  | num (q : ℚ)
  | numStr (q : ℚ)
  | badStr
deriving DecidableEq

/-- `safe_float` from the script: `None` and unparseable values give the
default `None`; numbers and numeric strings give their value. -/
def safe_float : FloatField → Option ℚ
  | .missing => none
  | .num q => some q
  | .numStr q => some q
  | .badStr => none

/-- Round-half-to-even of a rational to an integer, modelling Python's
built-in banker's rounding. The fractional part `r = q - ⌊q⌋` is compared
with `1/2` by cross-multiplication (`r < 1/2 ↔ 2 * r.num < r.den`, as
`r.den > 0`) so that the definition evaluates inside the kernel. -/
def roundHalfEven (q : ℚ) : ℤ :=
  let n := q.floor
  let r := q - (n : ℚ)
  if 2 * r.num < (r.den : ℤ) then n
  else if (r.den : ℤ) < 2 * r.num then n + 1
  else if n % 2 = 0 then n else n + 1

/-- Python's `round(x, 2)`, modelled exactly on rationals. -/
def pyRound2 (q : ℚ) : ℚ := (roundHalfEven (q * 100) : ℚ) / 100

/-- `format_price` from the script: cents to dollars rounded to 2 decimal
places, with the 2% fee applied (and a second rounding) when `is_sale`;
`None` or a non-numeric price yields `0.0` via the `except` branch. -/
def format_price (price_in_cents : PyPrice) (is_sale : Bool) : ℚ :=
  match price_in_cents with
  | .null => 0
  | .nonNum => 0
  | .int n =>
    let price := pyRound2 ((n : ℚ) / 100)
    if is_sale then pyRound2 (price * 0.98) else price

unseal Rat.mul Rat.add Rat.sub Rat.inv Rat.ofScientific in
example : format_price (.int 10000) false = 100 := by decide

unseal Rat.mul Rat.add Rat.sub Rat.inv Rat.ofScientific in
example : format_price (.int 10000) true = 98 := by decide

/-! ## Date parsing: `datetime.fromisoformat` and the three-tier fallback -/

/-- Numeric value of a decimal digit character. -/
def digitVal (c : Char) : Nat := c.toNat - 48

/-- Read exactly two decimal digits from the front of a character list. -/
def read2 : List Char → Option (Nat × List Char)
  | a :: b :: rest =>
    if a.isDigit && b.isDigit then some (digitVal a * 10 + digitVal b, rest) else none
  | _ => none

/-- Consume a maximal run of leading decimal digits; returns how many were
consumed and the remainder. -/
def skipDigits : List Char → Nat × List Char
  | [] => (0, [])
  | c :: rest =>
    if c.isDigit then
      let (n, r) := skipDigits rest
      (n + 1, r)
    else (0, c :: rest)

/-- Gregorian leap-year test, as in `datetime`. -/
def isLeap (y : Nat) : Bool := (y % 4 = 0 && y % 100 != 0) || y % 400 = 0

/-- Number of days in a month, as validated by `datetime`. -/
def daysInMonth (y m : Nat) : Nat :=
  if m = 2 then (if isLeap y then 29 else 28)
  else if m = 4 || m = 6 || m = 9 || m = 11 then 30
  else 31

/-- A UTC-offset suffix `±HH:MM[:SS[.digits]]` (after the sign), with the
ranges `datetime.timezone` accepts. -/
def parseOffsetTail (cs : List Char) : Bool :=
  match read2 cs with
  | none => false
  | some (oh, rest) =>
    decide (oh ≤ 23) &&
    match rest with
    | ':' :: r1 =>
      match read2 r1 with
      | none => false
      | some (om, r2) =>
        decide (om ≤ 59) &&
        match r2 with
        | [] => true
        | ':' :: r3 =>
          match read2 r3 with
          | none => false
          | some (os, r4) =>
            decide (os ≤ 59) &&
            match r4 with
            | [] => true
            | '.' :: r5 => (skipDigits r5).1 != 0 && (skipDigits r5).2 == []
            | _ => false
        | _ => false
    | _ => false

/-- An optional UTC-offset suffix: empty, or `+`/`-` followed by
`HH:MM[:SS[.digits]]`. -/
def parseOffset : List Char → Bool
  | [] => true
  | c :: rest => (c == '+' || c == '-') && parseOffsetTail rest

/-- The time-of-day part `HH[:MM[:SS[.digits]]]` followed by an optional
UTC offset, as accepted by `datetime.fromisoformat` (extended format). -/
def parseTime (cs : List Char) : Bool :=
  match read2 cs with
  | none => false
  | some (hh, rest) =>
    decide (hh ≤ 23) &&
    match rest with
    | ':' :: r1 =>
      match read2 r1 with
      | none => false
      | some (mm, r2) =>
        decide (mm ≤ 59) &&
        match r2 with
        | ':' :: r3 =>
          match read2 r3 with
          | none => false
          | some (ss, r4) =>
            decide (ss ≤ 59) &&
            match r4 with
            | '.' :: r5 => (skipDigits r5).1 != 0 && parseOffset (skipDigits r5).2
            | ',' :: r5 => (skipDigits r5).1 != 0 && parseOffset (skipDigits r5).2
            | _ => parseOffset r4
        | _ => parseOffset r2
    | _ => parseOffset rest

/-- Model of `datetime.fromisoformat` (CPython, extended calendar-date
format): a valid `YYYY-MM-DD` calendar date, optionally followed by a single
separator character and a valid time-of-day with optional UTC offset.
Returns the parsed date components `(year, month, day)` on success, `none`
where CPython raises `ValueError`. -/
def pyFromIsoformat (cs : List Char) : Option (Nat × Nat × Nat) :=
  match cs with
  | y1 :: y2 :: y3 :: y4 :: '-' :: m1 :: m2 :: '-' :: d1 :: d2 :: rest =>
    if y1.isDigit && y2.isDigit && y3.isDigit && y4.isDigit
        && m1.isDigit && m2.isDigit && d1.isDigit && d2.isDigit then
      let y := digitVal y1 * 1000 + digitVal y2 * 100 + digitVal y3 * 10 + digitVal y4
      let m := digitVal m1 * 10 + digitVal m2
      let d := digitVal d1 * 10 + digitVal d2
      if 1 ≤ y && 1 ≤ m && m ≤ 12 && 1 ≤ d && d ≤ daysInMonth y m then
        match rest with
        | [] => some (y, m, d)
        | _sep :: timeCs => if parseTime timeCs then some (y, m, d) else none
      else none
    else none
  | _ => none

/-- `date_str.replace('Z', '+00:00')`: every occurrence of `'Z'` is replaced
by the five characters `+00:00`. -/
def replaceZ : List Char → List Char
  | [] => []
  | c :: cs =>
    if c = 'Z' then '+' :: '0' :: '0' :: ':' :: '0' :: '0' :: replaceZ cs
    else c :: replaceZ cs

/-- Zero-pad a number to two digits, as `strftime('%m')`/`('%d')`. -/
def pad2 (n : Nat) : String := if n < 10 then "0" ++ toString n else toString n

/-- Zero-pad a number to four digits, as `strftime('%Y')` renders the
(1..9999) year of a parsed ISO date. -/
def pad4 (n : Nat) : String :=
  if n < 10 then "000" ++ toString n
  else if n < 100 then "00" ++ toString n
  else if n < 1000 then "0" ++ toString n
  else toString n

/-- `date.strftime('%Y-%m-%d')` on the parsed components. -/
def fmtYMD : Nat × Nat × Nat → String
  | (y, m, d) => pad4 y ++ "-" ++ pad2 m ++ "-" ++ pad2 d

/-- The three-tier date formatting of `process_trades`:
tier 1, `datetime.fromisoformat(date_str.replace('Z', '+00:00'))` then
`strftime('%Y-%m-%d')`; tier 2, on `ValueError`, the substring before the
first `'T'` when the string contains one (`date_str.split('T')[0]`);
tier 3, otherwise the first 10 characters (`date_str[:10]`). -/
def formatDate (date_str : String) : String :=
  match pyFromIsoformat (replaceZ date_str.data) with
  | some ymd => fmtYMD ymd
  | none =>
    if date_str.data.contains 'T' then String.mk (date_str.data.takeWhile (fun c => c ≠ 'T'))
    else String.mk (date_str.data.take 10)

example : formatDate "2023-05-01T12:00:00Z" = "2023-05-01" := by decide
example : formatDate "2023-05-01Txyz" = "2023-05-01" := by decide
example : formatDate "2023-05-01garbage" = "2023-05-01" := by decide
example : formatDate "2023-01-15T00:00:00Z" = "2023-01-15" := by decide

/-! ## The raw-trade data model and `process_trades` -/

/-- The nested `buyer` / `seller` object of a raw trade; `steam_id` may be
absent (then `.get('steam_id')` yields `None`). -/
structure Party where
  steam_id : Option String
deriving DecidableEq

/-- The nested `contract.item` object of a raw trade. -/
structure Item where
  market_hash_name : Option String
  float_value : FloatField
  type_name : Option String
deriving DecidableEq

/-- The nested `contract` object of a raw trade. -/
structure Contract where
  price : PyPrice
  item : Option Item
deriving DecidableEq

/-- A raw trade record from the API, restricted to the fields the script
reads; absent JSON keys are `none`. The date fields are strings here (see
`TradeX` for the embedding that drops this typing assumption). -/
structure Trade where
  buyer : Option Party
  seller : Option Party
  state : Option String
  contract : Option Contract
  accepted_at : Option String
  verified_at : Option String
  id : Option String
deriving DecidableEq

/-- `trade.get('buyer', {}).get('steam_id')`. -/
def Trade.buyerSid (t : Trade) : Option String := t.buyer.bind Party.steam_id

/-- `trade.get('seller', {}).get('steam_id')`. -/
def Trade.sellerSid (t : Trade) : Option String := t.seller.bind Party.steam_id

/-- `contract = trade.get('contract', {})` (an empty dict when absent). -/
def Trade.contractOf (t : Trade) : Contract := t.contract.getD ⟨.null, none⟩

/-- `item = contract.get('item', {})`. -/
def Trade.itemOf (t : Trade) : Item := t.contractOf.item.getD ⟨none, .missing, none⟩

/-- The date-string selection of `process_trades`: `accepted_at`, falling
back to `verified_at` when the former is falsy, and `none` when both are
falsy (the record is then skipped). -/
def chosenDate (t : Trade) : Option String :=
  let d1 := t.accepted_at
  let d2 := if pyTruthyStr d1 then d1 else t.verified_at
  if pyTruthyStr d2 then d2 else none

/-- One normalized output record (the dict built by `process_trades`). -/
structure Row where
  item_name : String
  price : ℚ
  float : Option ℚ
  type : String
  date : String
  id : String
deriving DecidableEq

/-- The body of the `for trade in trades` loop of `process_trades`:
`none` models a `continue` (record dropped), `some row` a record appended
to `processed_trades`. -/
def processOne (role : String) (steamId : Option String) (t : Trade) : Option Row :=
  if role = "buyer" ∧ t.buyerSid ≠ steamId then none
  else if role = "seller" ∧ t.sellerSid ≠ steamId then none
  else if t.state ≠ some "verified" then none
  else
    match chosenDate t with
    | none => none
    | some date_str =>
      some {
        item_name := t.itemOf.market_hash_name.getD "Unknown"
        price := format_price t.contractOf.price (role == "seller")
        float := safe_float t.itemOf.float_value
        type := t.itemOf.type_name.getD "Unknown"
        date := formatDate date_str
        id := t.id.getD "" }

/-- `process_trades`: filter and normalize every raw trade, then sort the
result ascending by the formatted date string
(`processed_trades.sort(key=lambda x: x['date'])`, a stable merge sort). -/
def process_trades (trades : List Trade) (role : String) (steamId : Option String) : List Row :=
  (trades.filterMap (processOne role steamId)).mergeSort
    (fun a b => decide (a.date ≤ b.date))

/-! ## The fetch loop `fetch_csfloat_trades` -/

/-- One page interaction of the fetch loop, as observed by the script:
either a failure (`response.status != 200`, or an exception raised while
requesting or decoding the page), or a successfully decoded `trades` list. -/
inductive PageResp (α : Type)
  | err
  | ok (trades : List α)

/-- The fetch loop over a stream of page responses (`pages[i]` is the
response to the request for zero-indexed page `i`, `limit=500`). Returns
the accumulated records (`all_trades`) and the number of requests issued.
The loop breaks on a failed page, an empty page, or a page of fewer than
500 records; only on a full page of exactly 500 does it continue with the
next page index. -/
def fetchPages {α : Type} : List (PageResp α) → List α × Nat
  | [] => ([], 0)
  | .err :: _ => ([], 1)
  | .ok ts :: rest =>
    if ts.isEmpty then ([], 1)
    else if ts.length < 500 then (ts, 1)
    else
      let acc := fetchPages rest
      (ts ++ acc.1, acc.2 + 1)

/-- The rate-limit interval of the script, in seconds. -/
def RATE_LIMIT : ℚ := 120

/-- Timing model of one iteration of the fetch loop. `lastReq` is
`last_request_time` (0 before the first request), `c1` the reading
`current_time = time.time()` at the top of the loop, and `slack ≥ 0` the
delay between the end of the optional `asyncio.sleep` and the subsequent
`last_request_time = time.time()` reading at which the request is issued.
When `c1 - lastReq < RATE_LIMIT` the loop sleeps exactly the remaining
`RATE_LIMIT - (c1 - lastReq)` seconds. -/
def nextRequestTime (lastReq c1 slack : ℚ) : ℚ :=
  (if c1 - lastReq < RATE_LIMIT then c1 + (RATE_LIMIT - (c1 - lastReq)) else c1) + slack

/-! ## CSV export `export_to_csv` -/

/-- CSV field quoting (`csv.QUOTE_MINIMAL`): a field containing a comma,
quote, CR or LF is wrapped in double quotes with inner quotes doubled. -/
def csvField (s : String) : String :=
  if s.data.any (fun c => c = ',' || c = '"' || c = '\n' || c = '\r') then
    "\"" ++ String.mk (s.data.foldr
      (fun c acc => if c = '"' then '"' :: '"' :: acc else c :: acc) []) ++ "\""
  else s

/-- Decimal rendering of a numeric cell. A `float` whose value is an exact
multiple of `1/100` (every price the script produces) is rendered as the
integer part, a point, and the minimal fractional digits with at least one
digit, as `str()` renders such floats; other rationals (possible
`float_value`s) get a fixed fraction rendering — the embedding abstracts
Python's float `repr` by a deterministic rendering. -/
def renderQ (q : ℚ) : String :=
  let sign := if q < 0 then "-" else ""
  let a : ℚ := |q|
  let cents : ℤ := (a * 100).num
  if (a * 100).den = 1 then
    let whole := cents / 100
    let frac := (cents % 100).toNat
    if frac = 0 then sign ++ toString whole ++ ".0"
    else if frac % 10 = 0 then sign ++ toString whole ++ "." ++ toString (frac / 10)
    else sign ++ toString whole ++ "." ++ pad2 frac
  else sign ++ toString a.num ++ "/" ++ toString a.den

/-- One data row written by `csv.DictWriter.writerow`: the six cells joined
by commas, terminated by CRLF; a `None` float is written as the empty
cell. -/
def renderRow (r : Row) : String :=
  String.intercalate "," [csvField r.item_name, csvField (renderQ r.price),
    csvField (match r.float with | none => "" | some q => renderQ q),
    csvField r.type, csvField r.date, csvField r.id] ++ "\r\n"

/-- `export_to_csv`, as the full byte content of the written file: the fixed
header row followed by one row per normalized trade, in order. -/
def export_to_csv (trades : List Row) : String :=
  "Item Name,Price,Float,Type,Date,CSFloat Transaction ID\r\n"
    ++ String.join (trades.map renderRow)

/-- `open(filename, 'w')` semantics: the file's previous content is
discarded; after the write the file holds exactly the new content. -/
def writeFileW (newContent _prev : String) : String := newContent

/-! ## The entry point `async_main` -/

/-- `async_main`: aborts before any network or file I/O when `API_KEY` is
falsy (unset, hence `None`, or set to the empty string); otherwise fetches
and exports both roles. `STEAM_ID` is passed through unchecked. The result
is `none` for the aborted run, `some` of the two written file contents
(`csfloat_purchases.csv`, `csfloat_sales.csv`) otherwise. -/
def async_main (apiKey steamId : Option String)
    (buyerPages sellerPages : List (PageResp Trade)) : Option (String × String) :=
  if !pyTruthyStr apiKey then none
  else
    let purchases := process_trades (fetchPages buyerPages).1 "buyer" steamId
    let sales := process_trades (fetchPages sellerPages).1 "seller" steamId
    some (export_to_csv purchases, export_to_csv sales)

/-! ## The exception-level embedding of `process_trades` (claim C9)

The main embedding above types `accepted_at` / `verified_at` as optional
strings. The script itself has no such guarantee: the `try/except` around
the date parse catches only `ValueError`, while a present non-string date
value makes `date_str.replace('Z', ...)` raise `AttributeError` (and
`datetime.fromisoformat` would raise `TypeError`), neither of which is
caught. `TradeX` / `process_trades_exc` model this: date fields carry an
arbitrary Python value and an uncaught exception is an `Except.error`. -/

/-- A Python value in a date field: `None`, a string, or some other value
(carrying only its truthiness, which is all `if not date_str` observes
before `.replace` is attempted). -/
inductive PyDateVal
  | null
  | str (s : String)
  | other (truthy : Bool)
deriving DecidableEq

/-- Python truthiness of a date-field value. -/
def PyDateVal.pyTruthy : PyDateVal → Bool
  | .null => false
  | .str s => !s.isEmpty
  | .other b => b

/-- A raw trade whose date fields are arbitrary Python values. -/
structure TradeX where
  buyer : Option Party
  seller : Option Party
  state : Option String
  contract : Option Contract
  accepted_at : PyDateVal
  verified_at : PyDateVal
  id : Option String
deriving DecidableEq

/-- `trade.get('buyer', {}).get('steam_id')` for `TradeX`. -/
def TradeX.buyerSid (t : TradeX) : Option String := t.buyer.bind Party.steam_id

/-- `trade.get('seller', {}).get('steam_id')` for `TradeX`. -/
def TradeX.sellerSid (t : TradeX) : Option String := t.seller.bind Party.steam_id

/-- `contract = trade.get('contract', {})` for `TradeX`. -/
def TradeX.contractOf (t : TradeX) : Contract := t.contract.getD ⟨.null, none⟩

/-- `item = contract.get('item', {})` for `TradeX`. -/
def TradeX.itemOf (t : TradeX) : Item := t.contractOf.item.getD ⟨none, .missing, none⟩

/-- The loop body of `process_trades` on a `TradeX`. `Except.error ()` is an
exception escaping the loop body: the only `except` branch catches
`ValueError` alone, so the `AttributeError`/`TypeError` raised by
`date_str.replace` on a truthy non-string date value propagates. -/
def processOneX (role : String) (steamId : Option String) (t : TradeX) :
    Except Unit (Option Row) :=
  if role = "buyer" ∧ t.buyerSid ≠ steamId then .ok none
  else if role = "seller" ∧ t.sellerSid ≠ steamId then .ok none
  else if t.state ≠ some "verified" then .ok none
  else
    let d1 := t.accepted_at
    let d2 := if d1.pyTruthy then d1 else t.verified_at
    if !d2.pyTruthy then .ok none
    else
      match d2 with
      | .str s =>
        .ok (some {
          item_name := t.itemOf.market_hash_name.getD "Unknown"
          price := format_price t.contractOf.price (role == "seller")
          float := safe_float t.itemOf.float_value
          type := t.itemOf.type_name.getD "Unknown"
          date := formatDate s
          id := t.id.getD "" })
      | _ => .error ()

/-- The filtering loop of `process_trades` on `TradeX` records, propagating
an escaping exception. -/
def collectX (role : String) (steamId : Option String) : List TradeX → Except Unit (List Row)
  | [] => .ok []
  | t :: ts =>
    match processOneX role steamId t with
    | .error e => .error e
    | .ok none => collectX role steamId ts
    | .ok (some row) =>
      match collectX role steamId ts with
      | .error e => .error e
      | .ok rest => .ok (row :: rest)

/-- `process_trades` on `TradeX` records: collect, then sort by date; an
uncaught exception aborts the whole call. -/
def process_trades_exc (trades : List TradeX) (role : String) (steamId : Option String) :
    Except Unit (List Row) :=
  match collectX role steamId trades with
  | .error e => .error e
  | .ok rows => .ok (rows.mergeSort (fun a b => decide (a.date ≤ b.date)))

/-- The precondition of claim C9: every present date value is a string
(absent (`None`) and falsy values are also harmless, since `.replace` is
never reached for them). -/
def goodDates (t : TradeX) : Prop :=
  (∀ b, t.accepted_at ≠ .other b) ∧ (∀ b, t.verified_at ≠ .other b)

instance (v : PyDateVal) : Decidable (∀ b, v ≠ .other b) :=
  match v with
  | .null => isTrue (fun _ h => PyDateVal.noConfusion h)
  | .str _ => isTrue (fun _ h => PyDateVal.noConfusion h)
  | .other b => isFalse (fun h => h b rfl)

instance (t : TradeX) : Decidable (goodDates t) :=
  inferInstanceAs (Decidable (_ ∧ _))

/-! ## Helper lemmas -/

/-- A truthy optional string is present. -/
theorem pyTruthyStr_isSome (o : Option String) (h : pyTruthyStr o = true) :
    o.isSome = true := by
  cases o <;> simp_all [pyTruthyStr]

/-- The chosen date string exists iff one of the two date fields is truthy. -/
theorem chosenDate_isSome (t : Trade) :
    (chosenDate t).isSome = (pyTruthyStr t.accepted_at || pyTruthyStr t.verified_at) := by
  unfold chosenDate
  cases h1 : pyTruthyStr t.accepted_at <;>
    cases h2 : pyTruthyStr t.verified_at <;> simp [h1, h2] <;>
    first
      | exact pyTruthyStr_isSome _ h1
      | exact pyTruthyStr_isSome _ h2

/-- The price of every row produced by the loop body is the formatted
contract price, fee-adjusted exactly when the role is `"seller"`. -/
theorem processOne_price (role : String) (sid : Option String) (t : Trade) (r : Row)
    (h : processOne role sid t = some r) :
    r.price = format_price t.contractOf.price (role == "seller") := by
  unfold processOne at h
  repeat' split at h
  all_goals simp_all
  exact congrArg Row.price h.symm

/-- The date of every row produced by the loop body is the three-tier
formatting of the chosen date string. -/
theorem processOne_date (role : String) (sid : Option String) (t : Trade) (r : Row)
    (ds : String) (h : processOne role sid t = some r) (hd : chosenDate t = some ds) :
    r.date = formatDate ds := by
  unfold processOne at h
  repeat' split at h
  all_goals simp_all
  subst hd
  exact congrArg Row.date h.symm

/-- Length of a `filterMap` as a count. -/
theorem length_filterMap_eq_countP {α β : Type} (f : α → Option β) (l : List α) :
    (l.filterMap f).length = l.countP (fun a => (f a).isSome) := by
  induction l with
  | nil => rfl
  | cons a l ih => cases h : f a <;> simp [List.filterMap_cons, h, List.countP_cons, ih]

/-- Membership characterization of the loop body for the two real roles. -/
theorem processOne_isSome_iff (role : String) (sid : Option String) (t : Trade)
    (hrole : role = "buyer" ∨ role = "seller") :
    (processOne role sid t).isSome = true ↔
      (t.state = some "verified"
        ∧ (if role = "buyer" then t.buyerSid else t.sellerSid) = sid
        ∧ (pyTruthyStr t.accepted_at = true ∨ pyTruthyStr t.verified_at = true)) := by
  have hd := chosenDate_isSome t
  rcases hrole with h | h <;> subst h <;>
    simp only [processOne] <;>
    by_cases h1 : t.buyerSid = sid <;> by_cases h2 : t.sellerSid = sid <;>
    by_cases h3 : t.state = some "verified" <;>
    cases hc : chosenDate t <;>
    simp_all

/-- A full page of exactly 500 records does not terminate the loop: its
records are accumulated and one more request is issued. -/
theorem fetchPages_cons_full {α : Type} (p : List α) (hp : p.length = 500)
    (rest : List (PageResp α)) :
    fetchPages (.ok p :: rest) = (p ++ (fetchPages rest).1, (fetchPages rest).2 + 1) := by
  have hne : p ≠ [] := by intro h; simp [h] at hp
  simp [fetchPages, hp, hne]

/-- Processing a stream that starts with full pages: all their records are
accumulated in order, one request each, and the loop continues on the
remainder. -/
theorem fetchPages_fullPrefix {α : Type} (fulls : List (List α))
    (hf : ∀ p ∈ fulls, p.length = 500) (rest : List (PageResp α)) :
    fetchPages (fulls.map .ok ++ rest)
      = (fulls.flatten ++ (fetchPages rest).1, fulls.length + (fetchPages rest).2) := by
  induction fulls with
  | nil => simp
  | cons p fulls ih =>
    have hp : p.length = 500 := hf p (by simp)
    have hrest : ∀ q ∈ fulls, q.length = 500 := fun q hq => hf q (by simp [hq])
    simp only [List.map_cons, List.cons_append, fetchPages_cons_full p hp, ih hrest,
      List.flatten_cons, List.length_cons, List.append_assoc, Prod.mk.injEq]
    exact ⟨trivial, by omega⟩

/-! ## Claim theorems -/

/-- C4: the fetch loop issues requests for zero-indexed pages of up to 500
records and terminates exactly at the first page that fails, is empty, or
holds strictly fewer than 500 records: a prefix of full 500-record pages
followed by a short (possibly empty) page yields exactly one request per
full page plus one for the final page, and the records of all processed
pages in API response order; in particular pages of 500 and 200 records
give 2 requests and 700 records. -/
theorem c4_pagination {α : Type} (fulls : List (List α)) (lastPage : List α)
    (rest : List (PageResp α)) (hf : ∀ p ∈ fulls, p.length = 500)
    (hl : lastPage.length < 500) :
    fetchPages (fulls.map .ok ++ .ok lastPage :: rest)
        = (fulls.flatten ++ lastPage, fulls.length + 1)
    ∧ fetchPages [PageResp.ok (List.replicate 500 (0 : ℕ)), .ok (List.replicate 200 0)]
        = (List.replicate 500 (0 : ℕ) ++ List.replicate 200 0, 2)
    ∧ (List.replicate 500 (0 : ℕ) ++ List.replicate 200 0).length = 700 := by
  refine ⟨?_, by decide, by decide⟩
  rw [fetchPages_fullPrefix fulls hf]
  by_cases he : lastPage = []
  · subst he; simp [fetchPages]
  · have hne : lastPage.isEmpty = false := by
      simpa [List.isEmpty_iff] using he
    simp [fetchPages, hne, hl]

/-- Witness for C4: two pages of 500 and 200 records give exactly 2 requests
and the 700 records in response order. -/
theorem c4_pagination_witness :
    fetchPages [PageResp.ok (List.replicate 500 (0 : ℕ)), .ok (List.replicate 200 0)]
        = (List.replicate 500 (0 : ℕ) ++ List.replicate 200 0, 2)
    ∧ (List.replicate 500 (0 : ℕ) ++ List.replicate 200 0).length = 700 :=
  (c4_pagination [List.replicate 500 0] (List.replicate 200 0) []
    (by intro p hp; simp at hp; subst hp; simp) (by simp)).2

/-- C5: a failed page (non-success status or a raised exception) terminates
the loop at once; the call returns the records of all fully processed
earlier pages only, as an ordinary value (the model is a total function, so
no failure propagates), with nothing from the failed page. -/
theorem c5_partial_on_error {α : Type} (fulls : List (List α))
    (rest : List (PageResp α)) (hf : ∀ p ∈ fulls, p.length = 500) :
    fetchPages (fulls.map .ok ++ .err :: rest) = (fulls.flatten, fulls.length + 1) := by
  rw [fetchPages_fullPrefix fulls hf]
  simp [fetchPages]

/-- Witness for C5: one full page then an error returns exactly the 500
accumulated records after 2 requests. -/
theorem c5_partial_on_error_witness :
    fetchPages [PageResp.ok (List.replicate 500 (0 : ℕ)), .err]
      = ([List.replicate 500 (0 : ℕ)].flatten, 2) :=
  c5_partial_on_error [List.replicate 500 0] []
    (by intro p hp; simp at hp; subst hp; simp)

/-- C6: before every request (the first included, with
`last_request_time = 0`), the loop sleeps out the remainder of the
`RATE_LIMIT` interval, so the clock reading at which the next request is
issued is at least `RATE_LIMIT` seconds after the previous one: no two
consecutive requests of one fetch call are issued less than `RATE_LIMIT`
seconds apart. -/
theorem c6_rate_limit (lastReq c1 slack : ℚ) (hs : 0 ≤ slack) :
    lastReq + RATE_LIMIT ≤ nextRequestTime lastReq c1 slack := by
  unfold nextRequestTime
  rcases lt_or_ge (c1 - lastReq) RATE_LIMIT with h | h
  · rw [if_pos h]; linarith
  · rw [if_neg (not_lt.mpr h)]; linarith

/-- Witness for C6 at `lastReq = 0`, `c1 = 30`, `slack = 0`: the next
request happens no earlier than 120 seconds after the previous one. -/
theorem c6_rate_limit_witness : (0 : ℚ) + RATE_LIMIT ≤ nextRequestTime 0 30 0 :=
  c6_rate_limit 0 30 0 (by norm_num)

/-- C7: the output of `process_trades` is sorted ascending by the formatted
date string: every adjacent pair of rows satisfies
`date[i] ≤ date[i+1]` lexicographically. -/
theorem c7_sorted_by_date (trades : List Trade) (role : String) (steamId : Option String) :
    List.Chain' (fun a b : Row => a.date ≤ b.date) (process_trades trades role steamId) := by
  have h : (List.mergeSort (trades.filterMap (processOne role steamId))
      (fun a b : Row => decide (a.date ≤ b.date))).Pairwise
      (fun a b : Row => decide (a.date ≤ b.date)) := by
    apply List.sorted_mergeSort
    · intro a b c hab hbc
      simp only [decide_eq_true_eq] at *
      exact le_trans hab hbc
    · intro a b
      rcases le_total a.date b.date with h | h <;> simp [h]
  unfold process_trades
  exact (h.imp (fun hab => of_decide_eq_true hab)).chain'

/-- C8: normalize-and-export is deterministic: the written file content is a
function of the fetched trades, role and identity alone (and `'w'` mode
discards any previous content), so two runs on the same inputs produce
byte-identical files. -/
theorem c8_deterministic (trades : List Trade) (role : String) (steamId : Option String)
    (prev1 prev2 : String) :
    writeFileW (export_to_csv (process_trades trades role steamId)) prev1
      = writeFileW (export_to_csv (process_trades trades role steamId)) prev2 := rfl

/-- C1: a raw trade contributes a row to the normalized output iff its
`state` is `"verified"`, its role-matching identity field equals the
configured identity, and at least one of `accepted_at` / `verified_at` is
present and non-empty (so that a date can be derived); failing records are
dropped (the loop body returns `none`), and each qualifying record
contributes exactly one row to the output. -/
theorem c1_membership (role : String) (steamId : Option String) (trades : List Trade)
    (hrole : role = "buyer" ∨ role = "seller") :
    (∀ t : Trade, (processOne role steamId t).isSome = true ↔
        (t.state = some "verified"
          ∧ (if role = "buyer" then t.buyerSid else t.sellerSid) = steamId
          ∧ (pyTruthyStr t.accepted_at = true ∨ pyTruthyStr t.verified_at = true)))
    ∧ (process_trades trades role steamId).length
        = trades.countP (fun t =>
            (t.state == some "verified")
            && ((if role = "buyer" then t.buyerSid else t.sellerSid) == steamId)
            && (pyTruthyStr t.accepted_at || pyTruthyStr t.verified_at)) := by
  have hiff := fun t => processOne_isSome_iff role steamId t hrole
  refine ⟨hiff, ?_⟩
  have h1 : (process_trades trades role steamId).length
      = (trades.filterMap (processOne role steamId)).length := by
    unfold process_trades
    exact (List.mergeSort_perm _ _).length_eq
  rw [h1, length_filterMap_eq_countP]
  apply List.countP_congr
  intro t _
  constructor
  · intro h
    have hc := (hiff t).mp h
    simp_all
  · intro h
    apply (hiff t).mpr
    simp_all

/-- C2: the exported price for role `"seller"` is
`round(round(c/100, 2) * 0.98, 2)` and for any other role `round(c/100, 2)`;
a `None` or non-numeric price yields `0.00` instead of an error; and the
price of every produced row is the formatted contract price with the fee
applied exactly when the role is `"seller"`. -/
theorem c2_price (n : ℤ) (b : Bool) (role : String) (steamId : Option String) (t : Trade) :
    format_price (.int n) true = pyRound2 (pyRound2 ((n : ℚ) / 100) * 0.98)
    ∧ format_price (.int n) false = pyRound2 ((n : ℚ) / 100)
    ∧ format_price .null b = 0
    ∧ format_price .nonNum b = 0
    ∧ (processOne role steamId t).map Row.price
        = (processOne role steamId t).map
            (fun _ => format_price t.contractOf.price (role == "seller")) := by
  refine ⟨rfl, rfl, rfl, rfl, ?_⟩
  cases h : processOne role steamId t with
  | none => rfl
  | some r => simpa using processOne_price role steamId t r h

/-- C3: the exported date of every kept record is the three-tier fallback
applied to the chosen date string (`accepted_at` preferred, else
`verified_at`): strict ISO-8601 parsing with trailing `Z` as UTC formatted
as `YYYY-MM-DD`; else the part before the first `'T'` when one occurs; else
the first 10 characters. The three spec examples land in the three tiers. -/
theorem c3_date_fallback (role : String) (steamId : Option String) (t : Trade) (r : Row)
    (ds : String) (h1 : processOne role steamId t = some r) (h2 : chosenDate t = some ds) :
    r.date = formatDate ds
    ∧ formatDate "2023-05-01T12:00:00Z" = "2023-05-01"
    ∧ formatDate "2023-05-01Txyz" = "2023-05-01"
    ∧ formatDate "2023-05-01garbage" = "2023-05-01" :=
  ⟨processOne_date role steamId t r ds h1 h2, by decide, by decide, by decide⟩

/-- The end-to-end example record of the spec (§8): a verified purchase by
steam id `"123"` of an AK-47 at 10000 cents. -/
def tEx : Trade :=
  { buyer := some ⟨some "123"⟩, seller := none, state := some "verified",
    contract := some ⟨.int 10000, some ⟨some "AK-47", .numStr 0.15, some "Rifle"⟩⟩,
    accepted_at := some "2023-01-15T00:00:00Z", verified_at := none, id := some "abc" }

/-- The normalized row `process_trades` produces for `tEx` under role
`"buyer"` and identity `"123"`. -/
def rowEx : Row :=
  { item_name := "AK-47", price := 100, float := some 0.15, type := "Rifle",
    date := "2023-01-15", id := "abc" }

unseal Rat.mul Rat.add Rat.sub Rat.inv Rat.ofScientific in
/-- Witness for C3 at the concrete record `tEx`. -/
theorem c3_date_fallback_witness :
    rowEx.date = formatDate "2023-01-15T00:00:00Z"
    ∧ formatDate "2023-05-01T12:00:00Z" = "2023-05-01"
    ∧ formatDate "2023-05-01Txyz" = "2023-05-01"
    ∧ formatDate "2023-05-01garbage" = "2023-05-01" :=
  c3_date_fallback "buyer" (some "123") tEx rowEx "2023-01-15T00:00:00Z"
    (by decide) (by decide)

/-- Witness for C1 at role `"buyer"`, identity `"123"`, and the one-record
trade list `[tEx]`. -/
theorem c1_membership_witness :
    (∀ t : Trade, (processOne "buyer" (some "123") t).isSome = true ↔
        (t.state = some "verified"
          ∧ (if "buyer" = "buyer" then t.buyerSid else t.sellerSid) = some "123"
          ∧ (pyTruthyStr t.accepted_at = true ∨ pyTruthyStr t.verified_at = true)))
    ∧ (process_trades [tEx] "buyer" (some "123")).length
        = [tEx].countP (fun t =>
            (t.state == some "verified")
            && ((if "buyer" = "buyer" then t.buyerSid else t.sellerSid) == some "123")
            && (pyTruthyStr t.accepted_at || pyTruthyStr t.verified_at)) :=
  c1_membership "buyer" (some "123") [tEx] (Or.inl rfl)

/-- With string-or-absent date fields the loop body never raises: every
branch of `processOneX` other than the truthy non-string date returns
`.ok`. -/
theorem processOneX_no_exc (role : String) (steamId : Option String) (t : TradeX)
    (h : goodDates t) : ∃ o, processOneX role steamId t = .ok o := by
  obtain ⟨ha, hv⟩ := h
  rcases t with ⟨b, sl, st, c, a, v, i⟩
  cases a with
  | other bb => exact absurd rfl (ha bb)
  | null =>
    cases v with
    | other bb => exact absurd rfl (hv bb)
    | null =>
      unfold processOneX
      repeat' split
      all_goals exact ⟨_, rfl⟩
    | str s =>
      unfold processOneX
      by_cases hs : s.isEmpty = true <;>
        simp only [PyDateVal.pyTruthy, hs, Bool.not_true, Bool.not_false] <;>
        repeat' split <;>
        first
          | exact ⟨_, rfl⟩
          | simp_all
  | str s =>
    cases v with
    | other bb => exact absurd rfl (hv bb)
    | null =>
      unfold processOneX
      by_cases hs : s.isEmpty = true <;>
        simp only [PyDateVal.pyTruthy, hs, Bool.not_true, Bool.not_false] <;>
        repeat' split <;>
        first
          | exact ⟨_, rfl⟩
          | simp_all
    | str s2 =>
      unfold processOneX
      by_cases hs : s.isEmpty = true <;> by_cases hs2 : s2.isEmpty = true <;>
        simp only [PyDateVal.pyTruthy, hs, hs2, Bool.not_true, Bool.not_false] <;>
        repeat' split <;>
        first
          | exact ⟨_, rfl⟩
          | simp_all

/-- The filtering loop succeeds on every list of records with
string-or-absent dates. -/
theorem collectX_ok (role : String) (steamId : Option String) (ts : List TradeX)
    (h : ∀ t ∈ ts, goodDates t) : ∃ rows, collectX role steamId ts = .ok rows := by
  induction ts with
  | nil => exact ⟨[], rfl⟩
  | cons t ts ih =>
    obtain ⟨o, ho⟩ := processOneX_no_exc role steamId t (h t (by simp))
    obtain ⟨rows, hrows⟩ := ih (fun u hu => h u (by simp [hu]))
    cases o with
    | none => exact ⟨rows, by simp [collectX, ho, hrows]⟩
    | some r => exact ⟨r :: rows, by simp [collectX, ho, hrows]⟩

/-- A verified trade whose `accepted_at` is a truthy non-string value: the
date parse raises an uncaught exception. -/
def badDateTrade : TradeX :=
  { buyer := none, seller := none, state := some "verified", contract := none,
    accepted_at := .other true, verified_at := .null, id := none }

/-- C9: `process_trades` is total exactly under the precondition that every
present date value is a string: the `except ValueError` branch is the only
guard on the parse, so under the precondition no exception escapes (every
malformed string date falls to a fallback tier), while a truthy non-string
date value raises an uncaught exception (`badDateTrade`). -/
theorem c9_totality (trades : List TradeX) (role : String) (steamId : Option String)
    (h : ∀ t ∈ trades, goodDates t) :
    (∃ rows, process_trades_exc trades role steamId = .ok rows)
    ∧ process_trades_exc [badDateTrade] "buyer" none = .error () := by
  constructor
  · obtain ⟨rows, hrows⟩ := collectX_ok role steamId trades h
    refine ⟨rows.mergeSort (fun a b => decide (a.date ≤ b.date)), ?_⟩
    unfold process_trades_exc
    rw [hrows]
  · rfl

/-- A record whose dates satisfy the C9 precondition. -/
def goodDateTrade : TradeX :=
  { buyer := none, seller := none, state := some "verified", contract := none,
    accepted_at := .str "2023-05-01T12:00:00Z", verified_at := .null, id := none }

/-- Witness for C9 at the one-record list `[goodDateTrade]`. -/
theorem c9_totality_witness :
    (∃ rows, process_trades_exc [goodDateTrade] "buyer" none = .ok rows)
    ∧ process_trades_exc [badDateTrade] "buyer" none = .error () :=
  c9_totality [goodDateTrade] "buyer" none (by decide)

/-- C10: only a falsy `API_KEY` aborts the run before any I/O; `STEAM_ID` is
never checked, so with identity `None` the run proceeds and keeps exactly
the verified, dated records whose role-matching `steam_id` field is itself
missing (`None == None`), dropping every record with a present
`steam_id`. -/
theorem c10_missing_config (steamId : Option String) (k : String)
    (buyerPages sellerPages : List (PageResp Trade)) (hk : k ≠ "") :
    async_main none steamId buyerPages sellerPages = none
    ∧ (async_main (some k) steamId buyerPages sellerPages).isSome = true
    ∧ (∀ t : Trade, (processOne "buyer" none t).isSome = true ↔
        (t.state = some "verified" ∧ t.buyerSid = none
          ∧ (pyTruthyStr t.accepted_at = true ∨ pyTruthyStr t.verified_at = true)))
    ∧ (∀ t : Trade, (processOne "seller" none t).isSome = true ↔
        (t.state = some "verified" ∧ t.sellerSid = none
          ∧ (pyTruthyStr t.accepted_at = true ∨ pyTruthyStr t.verified_at = true))) := by
  refine ⟨rfl, ?_, ?_, ?_⟩
  · have hkey : pyTruthyStr (some k) = true := by
      cases hke : k.isEmpty
      · simp [pyTruthyStr, hke]
      · exact absurd ((String.isEmpty_iff k).mp hke) hk
    simp [async_main, hkey]
  · intro t
    simpa using processOne_isSome_iff "buyer" none t (Or.inl rfl)
  · intro t
    simpa using processOne_isSome_iff "seller" none t (Or.inr rfl)

/-- Witness for C10 at `steamId = none`, `API_KEY = "KEY"`, empty page
streams. -/
theorem c10_missing_config_witness :
    async_main none none [] [] = none
    ∧ (async_main (some "KEY") none [] []).isSome = true
    ∧ (∀ t : Trade, (processOne "buyer" none t).isSome = true ↔
        (t.state = some "verified" ∧ t.buyerSid = none
          ∧ (pyTruthyStr t.accepted_at = true ∨ pyTruthyStr t.verified_at = true)))
    ∧ (∀ t : Trade, (processOne "seller" none t).isSome = true ↔
        (t.state = some "verified" ∧ t.sellerSid = none
          ∧ (pyTruthyStr t.accepted_at = true ∨ pyTruthyStr t.verified_at = true))) :=
  c10_missing_config none "KEY" [] [] (by decide)

/-- Counterexample to C10 as stated: the credential being absent is not the
only configuration that aborts the run before any I/O — a present but empty
`API_KEY` (the environment variable set to `""`) is falsy under
`if not API_KEY` and aborts the run just the same. -/
theorem c10_counterexample : async_main (some "") none [] [] = none := rfl
